import Mathlib

/-
Verification of the CanFestival object-dictionary access layer
(src/include/objacces.h and the objacces.c translation unit).

The engine operates on byte memories. A memory is modelled as a total
function from byte offset to byte value: C pointers address unbounded
memory, and the string-scan loop in the read path is bounded only by
the bytes it finds, so a model of just the declared window would hide
the interesting behaviour. Sizes and error codes are Nat.
-/

set_option autoImplicit false

namespace ObjAcces

/-- Modelled from the spec: result / SDO abort codes. They are declared in
def.h, which is not part of the excerpt; the spec names the code set in its
error taxonomy. Only distinctness of the codes matters to the engine. -/
def OD_SUCCESSFUL : Nat := 0x00000000

/-- Modelled from the spec: abort code for an index that is not present. -/
def OD_NO_SUCH_OBJECT : Nat := 0x06020000

/-- Modelled from the spec: abort code for a subindex out of range. -/
def OD_NO_SUCH_SUBINDEX : Nat := 0x06090011

/-- Modelled from the spec: abort code for reading a non-readable entry. -/
def OD_READ_NOT_ALLOWED : Nat := 0x06010001

/-- Modelled from the spec: abort code for writing a non-writable entry. -/
def OD_WRITE_NOT_ALLOWED : Nat := 0x06010002

/-- Modelled from the spec: abort code for a size-acceptance failure. -/
def OD_LENGTH_DATA_INVALID : Nat := 0x06070010

/-- Modelled from the spec: abort code for a destination buffer that is too
small on read. -/
def SDOABT_OUT_OF_MEMORY : Nat := 0x05040005

/-- Modelled from the spec: access-rights bit flags, declared in
objdictdef.h (not part of the excerpt). The spec describes read-only and
write-only as mutually exclusive permissions and persist-on-write as a
further combinable flag, so the three are distinct bits. -/
def RW : Nat := 0x00

/-- Modelled from the spec: write-only access flag bit. -/
def WO : Nat := 0x01

/-- Modelled from the spec: read-only access flag bit. -/
def RO : Nat := 0x02

/-- Modelled from the spec: persist-on-write access flag bit. -/
def TO_BE_SAVE : Nat := 0x04

/-- Modelled from the spec: data-type codes from objdictdef.h (not part of
the excerpt). The engine compares the type code against the boolean,
visible_string and domain markers; the string/time/domain family occupies
the contiguous code range between visible_string and domain. -/
def boolean : Nat := 0x01

/-- Modelled from the spec: type code of 16-bit signed integers. -/
def int16 : Nat := 0x03

/-- Modelled from the spec: type code of 16-bit unsigned integers. -/
def uns16 : Nat := 0x06

/-- Modelled from the spec: type code of visible (zero-terminated) strings. -/
def visible_string : Nat := 0x09

/-- Modelled from the spec: type code of domain objects, the last code of
the string/time/domain family. -/
def domain : Nat := 0x0F

/-- One entry descriptor (td_subindex): access flags, data type, declared
byte size, and the storage it points to. `pObject` is the byte memory
reachable through the entry's storage pointer; offsets at or beyond `size`
lie outside the declared window but are still addressable, as in C. -/
structure Subindex where
  bAccessType : Nat
  bDataType : Nat
  size : Nat
  pObject : Nat → Nat

/-- Placeholder descriptor used only to give List.getD a default; every
theorem resolves a real entry before using it. -/
def dummySubindex : Subindex :=
  { bAccessType := 0, bDataType := 0, size := 0, pObject := fun _ => 0 }

/-- One index table (td_indextable): the subindex descriptors and the
declared subindex count used for the bounds check. -/
structure IndexTable where
  bSubCount : Nat
  pSubindex : List Subindex

/-- The CO_Data slice the access engine uses. `scanIndexOD` is the injected
index resolver: it yields the index table and the optional per-subindex
callback slot array, or nothing when the index is absent (the resolver then
reports OD_NO_SUCH_OBJECT). A callback slot is modelled by the result code
the registered callback returns; the engine inspects nothing else of it.
`valueRangeTest` is the injected validator, applied to the data type and the
(possibly byte-reversed) source memory. The storeODSubIndex notifier carries
no data back, so it is recorded as an event of the write. -/
structure CO_Data where
  scanIndexOD : Nat → Option (IndexTable × Option (List (Option Nat)))
  valueRangeTest : Nat → (Nat → Nat) → Nat

/-- Pointwise store: the memory f with offset k holding v. -/
def updFn (f : Nat → Nat) (k v : Nat) : Nat → Nat :=
  fun j => if j = k then v else f j

/-- The condition guarding both byte-reversal sites: the build is
big-endian (CANOPEN_BIG_ENDIAN), endianize was requested, and the data type
is a multi-byte scalar, i.e. above boolean and outside the
visible_string..domain family. -/
def endianCond (be endianize : Bool) (dataType : Nat) : Prop :=
  be = true ∧ endianize = true ∧ boolean < dataType ∧
    ¬(visible_string ≤ dataType ∧ dataType ≤ domain)

instance endianCondDec (be endianize : Bool) (dataType : Nat) :
    Decidable (endianCond be endianize dataType) := by
  unfold endianCond
  infer_instance

/-- The in-place swap loop of _setODentry:
for (i = 0; i < n >> 1; i++) exchange src[i] with src[n-1-i].
`fuel` bounds the remaining iterations; the callers pass n, which covers
the n / 2 iterations the loop performs. -/
def swapIter (n : Nat) (src : Nat → Nat) : Nat → Nat → Nat → Nat
  | i, fuel + 1 =>
    if i < n / 2 then
      swapIter n (updFn (updFn src (n - 1 - i) (src i)) i (src (n - 1 - i))) (i + 1) fuel
    else src
  | _, 0 => src

/-- The source memory after the write-side endianize step: the first
`size` bytes reversed in place when `endianCond` holds, untouched
otherwise. -/
def endianizedSource (be ez : Bool) (dataType szData : Nat) (src : Nat → Nat) :
    Nat → Nat :=
  if endianCond be ez dataType then swapIter szData src 0 szData else src

/-- The entry storage after the copy step of _setODentry: memcpy of
pExpectedSize bytes from the (endianized) source, then for a
visible_string shorter than the declared size a zero terminator at offset
pExpectedSize. -/
def writtenObject (be ez : Bool) (e : Subindex) (src : Nat → Nat) (pes : Nat) :
    Nat → Nat :=
  if e.bDataType = visible_string ∧ pes < e.size then
    updFn
      (fun k => if k < pes then endianizedSource be ez e.bDataType e.size src k
                else e.pObject k)
      pes 0
  else
    fun k => if k < pes then endianizedSource be ez e.bDataType e.size src k
             else e.pObject k

/-- Observable notifications issued by a write, in order. -/
inductive WriteEvent where
  | copied : WriteEvent
  | callbackInvoked : Nat → WriteEvent
  | stored : WriteEvent
deriving DecidableEq

/-- Result of _setODentry: the returned code, the entry storage after the
call, the caller's source buffer after the call (the engine may reverse it
in place), the value left in *pExpectedSize, and the ordered notification
events. On paths where no entry was resolved the storage field is the zero
memory and is not meaningful. -/
structure WriteResult where
  ret : Nat
  obj : Nat → Nat
  src : Nat → Nat
  expectedSize : Nat
  events : List WriteEvent

/-- The callback slot consulted by the write tail: the slot array, when the
index has one, indexed by subindex. -/
def callbackOf (slots : Option (List (Option Nat))) (bSubindex : Nat) : Option Nat :=
  match slots with
  | none => none
  | some l => l.getD bSubindex none

/-- Tail of _setODentry after the copy: *pExpectedSize = szData, then the
registered callback (a non-success return is propagated and skips the
persistence notification), then storeODSubIndex when the entry carries
TO_BE_SAVE. -/
def _setODfinish (bSubindex : Nat) (e : Subindex)
    (callbackSlots : Option (List (Option Nat))) (obj2 src1 : Nat → Nat) :
    WriteResult :=
  match callbackOf callbackSlots bSubindex with
  | some cb =>
    if cb ≠ OD_SUCCESSFUL then
      ⟨cb, obj2, src1, e.size, [WriteEvent.copied, WriteEvent.callbackInvoked cb]⟩
    else if e.bAccessType &&& TO_BE_SAVE ≠ 0 then
      ⟨OD_SUCCESSFUL, obj2, src1, e.size,
        [WriteEvent.copied, WriteEvent.callbackInvoked cb, WriteEvent.stored]⟩
    else
      ⟨OD_SUCCESSFUL, obj2, src1, e.size,
        [WriteEvent.copied, WriteEvent.callbackInvoked cb]⟩
  | none =>
    if e.bAccessType &&& TO_BE_SAVE ≠ 0 then
      ⟨OD_SUCCESSFUL, obj2, src1, e.size, [WriteEvent.copied, WriteEvent.stored]⟩
    else
      ⟨OD_SUCCESSFUL, obj2, src1, e.size, [WriteEvent.copied]⟩

/-- Body of _setODentry once the entry is resolved (objacces.c lines
70-137): access check, size-acceptance rule, endianize, value-range test,
copy, termination, callback and persistence tail. -/
def setODcore (be : Bool) (d : CO_Data) (bSubindex : Nat) (e : Subindex)
    (callbackSlots : Option (List (Option Nat)))
    (pSourceData : Nat → Nat) (pExpectedSize : Nat) (checkAccess ez : Bool) :
    WriteResult :=
  if checkAccess = true ∧ e.bAccessType = RO then
    ⟨OD_WRITE_NOT_ALLOWED, e.pObject, pSourceData, pExpectedSize, []⟩
  else if pExpectedSize = 0 ∨ pExpectedSize = e.size ∨
      (e.bDataType = visible_string ∧ pExpectedSize < e.size) then
    if d.valueRangeTest e.bDataType
        (endianizedSource be ez e.bDataType e.size pSourceData) ≠ OD_SUCCESSFUL then
      ⟨d.valueRangeTest e.bDataType
          (endianizedSource be ez e.bDataType e.size pSourceData),
        e.pObject,
        endianizedSource be ez e.bDataType e.size pSourceData,
        pExpectedSize, []⟩
    else
      _setODfinish bSubindex e callbackSlots
        (writtenObject be ez e pSourceData pExpectedSize)
        (endianizedSource be ez e.bDataType e.size pSourceData)
  else
    ⟨OD_LENGTH_DATA_INVALID, e.pObject, pSourceData, e.size, []⟩

/-- _setODentry (objacces.c lines 47-138). `be` stands for the
CANOPEN_BIG_ENDIAN build flag. -/
def _setODentry (be : Bool) (d : CO_Data) (wIndex bSubindex : Nat)
    (pSourceData : Nat → Nat) (pExpectedSize : Nat) (checkAccess ez : Bool) :
    WriteResult :=
  match d.scanIndexOD wIndex with
  | none => ⟨OD_NO_SUCH_OBJECT, fun _ => 0, pSourceData, pExpectedSize, []⟩
  | some (ptrTable, callbackSlots) =>
    if ptrTable.bSubCount ≤ bSubindex then
      ⟨OD_NO_SUCH_SUBINDEX, fun _ => 0, pSourceData, pExpectedSize, []⟩
    else
      setODcore be d bSubindex (ptrTable.pSubindex.getD bSubindex dummySubindex)
        callbackSlots pSourceData pExpectedSize checkAccess ez

/-- _findODentry (objacces.h lines 148-170): resolve the index, check the
subindex bound, and hand back the entry descriptor. -/
def _findODentry (d : CO_Data) (wIndex bSubindex : Nat) : Except Nat Subindex :=
  match d.scanIndexOD wIndex with
  | none => Except.error OD_NO_SUCH_OBJECT
  | some (ptrTable, _) =>
    if ptrTable.bSubCount ≤ bSubindex then Except.error OD_NO_SUCH_SUBINDEX
    else Except.ok (ptrTable.pSubindex.getD bSubindex dummySubindex)

/-- _checkODentryAccess (objacces.h lines 172-180): TRUE when the entry
carries the write-only flag, FALSE otherwise. -/
def _checkODentryAccess (e : Subindex) : Bool :=
  if e.bAccessType &&& WO ≠ 0 then true else false

/-- Stop position of the string-scan loop
while (*ptr && ptr < ptr_end): starting from offset i, advance while the
byte is non-zero and the offset is below `bound`. `fuel` bounds the
recursion; bound + 1 steps always suffice, so the loop never stops early
for lack of fuel. -/
def scanPos (mem : Nat → Nat) (bound : Nat) : Nat → Nat → Nat
  | i, fuel + 1 =>
    if mem i = 0 then i else if i < bound then scanPos mem bound (i + 1) fuel else i
  | i, 0 => i

/-- The bound pointer of the string scan:
ptr_end = ptr + (*pExpectedSize ? *pExpectedSize : szData). -/
def stringScanBound (pExpectedSize szData : Nat) : Nat :=
  if pExpectedSize ≠ 0 then pExpectedSize else szData

/-- Number of bytes the string scan walks before stopping. -/
def stringScanLen (mem : Nat → Nat) (bound : Nat) : Nat :=
  scanPos mem bound 0 (bound + 1)

/-- Result of _copyODentry: the returned code, the caller's destination
memory after the call, the entry storage after the call (the string branch
writes the terminating zero through the storage-side scan pointer), and the
value left in *pExpectedSize. -/
structure CopyResult where
  ret : Nat
  dest : Nat → Nat
  obj : Nat → Nat
  expectedSize : Nat

/-- _copyODentry (objacces.h lines 182-243): capacity check, endianized
scalar copy, plain memcpy, or zero-terminated string scan. -/
def _copyODentry (be : Bool) (e : Subindex) (pDestData : Nat → Nat)
    (dataType : Nat) (pExpectedSize : Nat) (endianize : Bool) : CopyResult :=
  if pExpectedSize < e.size then
    ⟨SDOABT_OUT_OF_MEMORY, pDestData, e.pObject, e.size⟩
  else if endianCond be endianize dataType then
    ⟨OD_SUCCESSFUL,
      fun j => if j < e.size then e.pObject (e.size - 1 - j) else pDestData j,
      e.pObject, e.size⟩
  else if dataType ≠ visible_string then
    ⟨OD_SUCCESSFUL,
      fun j => if j < e.size then e.pObject j else pDestData j,
      e.pObject, e.size⟩
  else
    ⟨OD_SUCCESSFUL,
      fun j =>
        if j < stringScanLen e.pObject (stringScanBound pExpectedSize e.size) then
          e.pObject j
        else pDestData j,
      if stringScanLen e.pObject (stringScanBound pExpectedSize e.size) < e.size then
        updFn e.pObject (stringScanLen e.pObject (stringScanBound pExpectedSize e.size)) 0
      else e.pObject,
      stringScanLen e.pObject (stringScanBound pExpectedSize e.size)⟩

/-- Result of getODentry: the returned code, destination and entry storage
memories after the call, the value left in *pExpectedSize, and the data
type written through pDataType (absent on the paths that return before
setting it). -/
structure ReadResult where
  ret : Nat
  dest : Nat → Nat
  obj : Nat → Nat
  expectedSize : Nat
  dataTypeOut : Option Nat

/-- getODentry (objacces.h lines 265-279): resolve, access check as coded
(return OD_READ_NOT_ALLOWED when _checkODentryAccess yields FALSE), set
*pDataType, and copy with endianize = TRUE. -/
def getODentry (be : Bool) (d : CO_Data) (wIndex bSubindex : Nat)
    (pDestData : Nat → Nat) (pExpectedSize : Nat) (checkAccess : Bool) :
    ReadResult :=
  match _findODentry d wIndex bSubindex with
  | Except.error err => ⟨err, pDestData, fun _ => 0, pExpectedSize, none⟩
  | Except.ok e =>
    if checkAccess = true ∧ _checkODentryAccess e = false then
      ⟨OD_READ_NOT_ALLOWED, pDestData, e.pObject, pExpectedSize, none⟩
    else
      ⟨(_copyODentry be e pDestData e.bDataType pExpectedSize true).ret,
        (_copyODentry be e pDestData e.bDataType pExpectedSize true).dest,
        (_copyODentry be e pDestData e.bDataType pExpectedSize true).obj,
        (_copyODentry be e pDestData e.bDataType pExpectedSize true).expectedSize,
        some e.bDataType⟩

/-- RegisterSetODentryCallBack (objacces.c lines 145-155): resolve the
index, and only when a slot array exists and the subindex is in range,
overwrite that slot. The pair returned is the resolver's code and the slot
array after the call. -/
def RegisterSetODentryCallBack (d : CO_Data) (wIndex bSubindex cb : Nat) :
    Nat × Option (List (Option Nat)) :=
  match d.scanIndexOD wIndex with
  | none => (OD_NO_SUCH_OBJECT, none)
  | some (odentry, slots) =>
    match slots with
    | some l =>
      if bSubindex < odentry.bSubCount then
        (OD_SUCCESSFUL, some (l.set bSubindex (some cb)))
      else (OD_SUCCESSFUL, some l)
    | none => (OD_SUCCESSFUL, none)

/-
Concrete dictionaries used to evaluate the engine at specific inputs.
-/

/-- A plainly readable read-write 16-bit entry holding the little-endian
bytes of 1000. -/
def rwEntry : Subindex :=
  { bAccessType := RW, bDataType := uns16, size := 2,
    pObject := fun k => if k = 0 then 0xE8 else if k = 1 then 0x03 else 0 }

/-- A write-only 16-bit entry with the same stored bytes. -/
def woEntry : Subindex :=
  { bAccessType := WO, bDataType := uns16, size := 2,
    pObject := fun k => if k = 0 then 0xE8 else if k = 1 then 0x03 else 0 }

/-- Dictionary exposing rwEntry at (0x1017, 0) and woEntry at (0x1017, 1). -/
def accessDict : CO_Data :=
  { scanIndexOD := fun w =>
      if w = 0x1017 then some (⟨2, [rwEntry, woEntry]⟩, none) else none,
    valueRangeTest := fun _ _ => OD_SUCCESSFUL }

/-- A 16-bit entry marked read-only together with persist-on-write. -/
def roPersistEntry : Subindex :=
  { bAccessType := RO ||| TO_BE_SAVE, bDataType := uns16, size := 2,
    pObject := fun k => if k = 0 then 0xAA else if k = 1 then 0xBB else 0 }

/-- Dictionary exposing roPersistEntry at (0x2000, 0). -/
def roPersistDict : CO_Data :=
  { scanIndexOD := fun w =>
      if w = 0x2000 then some (⟨1, [roPersistEntry]⟩, none) else none,
    valueRangeTest := fun _ _ => OD_SUCCESSFUL }

/-- A 16-bit entry whose access type is exactly the read-only flag. -/
def roEntry : Subindex :=
  { bAccessType := RO, bDataType := uns16, size := 2, pObject := fun _ => 0xCC }

/-- Dictionary exposing roEntry at (0x2001, 0). -/
def roDict : CO_Data :=
  { scanIndexOD := fun w =>
      if w = 0x2001 then some (⟨1, [roEntry]⟩, none) else none,
    valueRangeTest := fun _ _ => OD_SUCCESSFUL }

/-- A visible_string entry of capacity 4 holding the two bytes "AB"
followed by a zero terminator inside the window. -/
def strEntry : Subindex :=
  { bAccessType := RW, bDataType := visible_string, size := 4,
    pObject := fun k => if k = 0 then 65 else if k = 1 then 66 else 0 }

/-- Dictionary exposing strEntry at (0x3000, 0). -/
def strDict : CO_Data :=
  { scanIndexOD := fun w =>
      if w = 0x3000 then some (⟨1, [strEntry]⟩, none) else none,
    valueRangeTest := fun _ _ => OD_SUCCESSFUL }

/-- A visible_string entry of capacity 2 whose storage window, and the
memory beyond it, contains no zero byte at all. -/
def overrunEntry : Subindex :=
  { bAccessType := RW, bDataType := visible_string, size := 2,
    pObject := fun k => k + 65 }

/-- Dictionary exposing overrunEntry at (0x4000, 0). -/
def overrunDict : CO_Data :=
  { scanIndexOD := fun w =>
      if w = 0x4000 then some (⟨1, [overrunEntry]⟩, none) else none,
    valueRangeTest := fun _ _ => OD_SUCCESSFUL }

/-- A read-write 16-bit entry with known stored bytes 0xAA, 0xBB. -/
def u16Entry : Subindex :=
  { bAccessType := RW, bDataType := uns16, size := 2,
    pObject := fun k => if k = 0 then 0xAA else if k = 1 then 0xBB else 0 }

/-- Dictionary exposing u16Entry at (0x5000, 0). -/
def u16Dict : CO_Data :=
  { scanIndexOD := fun w =>
      if w = 0x5000 then some (⟨1, [u16Entry]⟩, none) else none,
    valueRangeTest := fun _ _ => OD_SUCCESSFUL }

/-- Dictionary with a callback slot array of length 1 at index 0x6000. -/
def cbDict : CO_Data :=
  { scanIndexOD := fun w =>
      if w = 0x6000 then some (⟨1, [u16Entry]⟩, some [none]) else none,
    valueRangeTest := fun _ _ => OD_SUCCESSFUL }

/-- A zero-initialised read-write 16-bit entry. -/
def cbFailEntry : Subindex :=
  { bAccessType := RW, bDataType := uns16, size := 2, pObject := fun _ => 0 }

/-- Dictionary with three subindexes at 0x7000 and a callback registered on
subindex 2 that reports the generic failure code 0x08000020. -/
def cbFailDict : CO_Data :=
  { scanIndexOD := fun w =>
      if w = 0x7000 then
        some (⟨3, [cbFailEntry, cbFailEntry, cbFailEntry]⟩,
          some [none, none, some 0x08000020])
      else none,
    valueRangeTest := fun _ _ => OD_SUCCESSFUL }

/-- A zero-initialised heartbeat-style 16-bit entry at (0x1018, 0). -/
def hbEntry : Subindex :=
  { bAccessType := RW, bDataType := uns16, size := 2, pObject := fun _ => 0 }

/-- The little-endian native bytes of 1000. -/
def hbSrc : Nat → Nat := fun k => if k = 0 then 0xE8 else if k = 1 then 0x03 else 0

/-- Dictionary exposing hbEntry at (0x1018, 0). -/
def hbDict : CO_Data :=
  { scanIndexOD := fun w =>
      if w = 0x1018 then some (⟨1, [hbEntry]⟩, none) else none,
    valueRangeTest := fun _ _ => OD_SUCCESSFUL }

/-- The heartbeat entry after writing hbSrc with endianize requested on a
big-endian build. -/
def hbEntryAfter : Subindex :=
  { bAccessType := RW, bDataType := uns16, size := 2,
    pObject := (_setODentry true hbDict 0x1018 0 hbSrc 2 false true).obj }

/-- The dictionary as the read path sees it after that write. -/
def hbDictAfter : CO_Data :=
  { scanIndexOD := fun w =>
      if w = 0x1018 then some (⟨1, [hbEntryAfter]⟩, none) else none,
    valueRangeTest := fun _ _ => OD_SUCCESSFUL }

/-
Helper lemmas shared by the claim theorems.
-/

/-- Resolution helper: when the index is present and the subindex is in
range, _findODentry yields the descriptor at that subindex. -/
theorem findODentry_ok (d : CO_Data) (w i : Nat) (t : IndexTable)
    (slots : Option (List (Option Nat)))
    (hscan : d.scanIndexOD w = some (t, slots)) (hsub : i < t.bSubCount) :
    _findODentry d w i = Except.ok (t.pSubindex.getD i dummySubindex) := by
  simp only [_findODentry, hscan]
  rw [if_neg (Nat.not_le.mpr hsub)]

/-- Resolution helper: under the same hypotheses, _setODentry is its
post-resolution body. -/
theorem setODentry_resolved (be : Bool) (d : CO_Data) (w i : Nat)
    (src : Nat → Nat) (pes : Nat) (ca ez : Bool) (t : IndexTable)
    (slots : Option (List (Option Nat)))
    (hscan : d.scanIndexOD w = some (t, slots)) (hsub : i < t.bSubCount) :
    _setODentry be d w i src pes ca ez =
      setODcore be d i (t.pSubindex.getD i dummySubindex) slots src pes ca ez := by
  simp only [_setODentry, hscan]
  rw [if_neg (Nat.not_le.mpr hsub)]

/-- The write tail always leaves the copied storage, the endianized source
and the declared size in the result, whatever the callback and persistence
flags do. -/
theorem setODfinish_fields (i : Nat) (e : Subindex)
    (slots : Option (List (Option Nat))) (obj2 src1 : Nat → Nat) :
    (_setODfinish i e slots obj2 src1).obj = obj2 ∧
    (_setODfinish i e slots obj2 src1).src = src1 ∧
    (_setODfinish i e slots obj2 src1).expectedSize = e.size := by
  unfold _setODfinish
  refine ⟨?_, ?_, ?_⟩ <;>
    (split <;> (first | rfl | (split <;> (first | rfl | (split <;> rfl)))))

/-- With the access check passed, the size accepted and the validator
content, setODcore is the write tail applied to the copied storage. -/
theorem setODcore_pass (be ez ca : Bool) (d : CO_Data) (i : Nat)
    (e : Subindex) (slots : Option (List (Option Nat)))
    (src : Nat → Nat) (pes : Nat)
    (hacc : ¬(ca = true ∧ e.bAccessType = RO))
    (hsize : pes = 0 ∨ pes = e.size ∨
      (e.bDataType = visible_string ∧ pes < e.size))
    (hval : d.valueRangeTest e.bDataType
      (endianizedSource be ez e.bDataType e.size src) = OD_SUCCESSFUL) :
    setODcore be d i e slots src pes ca ez =
      _setODfinish i e slots (writtenObject be ez e src pes)
        (endianizedSource be ez e.bDataType e.size src) := by
  unfold setODcore
  rw [if_neg hacc, if_pos hsize, if_neg (fun hne => hne hval)]

/-- The block of iterations of the swap loop still ahead at counter `i`
reverses the inner window [i, n - i) of the memory and touches nothing
else, provided the fuel covers the remaining iterations. -/
theorem swapIter_eq (n : Nat) : ∀ (fuel i : Nat) (h : Nat → Nat),
    n / 2 ≤ i + fuel → ∀ k, swapIter n h i fuel k =
      if i ≤ k ∧ k < n - i then h (n - 1 - k) else h k := by
  intro fuel
  induction fuel with
  | zero =>
    intro i h hle k
    simp only [swapIter]
    split
    · next hk => rw [show n - 1 - k = k by omega]
    · rfl
  | succ f ih =>
    intro i h hle k
    simp only [swapIter]
    by_cases hi : i < n / 2
    · rw [if_pos hi, ih (i + 1) _ (by omega) k]
      by_cases hk : i + 1 ≤ k ∧ k < n - (i + 1)
      · rw [if_pos hk, if_pos (show i ≤ k ∧ k < n - i by omega)]
        simp only [updFn]
        rw [if_neg (show ¬(n - 1 - k = i) by omega),
          if_neg (show ¬(n - 1 - k = n - 1 - i) by omega)]
      · rw [if_neg hk]
        simp only [updFn]
        by_cases hki : k = i
        · rw [if_pos hki, if_pos (show i ≤ k ∧ k < n - i by omega)]
          rw [show n - 1 - k = n - 1 - i by omega]
        · rw [if_neg hki]
          by_cases hkni : k = n - 1 - i
          · rw [if_pos hkni, if_pos (show i ≤ k ∧ k < n - i by omega),
              show n - 1 - k = i by omega]
          · rw [if_neg hkni, if_neg (show ¬(i ≤ k ∧ k < n - i) by omega)]
    · rw [if_neg hi]
      split
      · next hk => rw [show n - 1 - k = k by omega]
      · rfl

/-- The completed swap loop is byte reversal of the first n bytes. -/
theorem swapIter_full (n : Nat) (src : Nat → Nat) (k : Nat) :
    swapIter n src 0 n k = if k < n then src (n - 1 - k) else src k := by
  rw [swapIter_eq n n 0 src (by omega) k]
  by_cases hk : k < n
  · rw [if_pos (show 0 ≤ k ∧ k < n - 0 by omega), if_pos hk]
  · rw [if_neg (show ¬(0 ≤ k ∧ k < n - 0) by omega), if_neg hk]

/-- The write tail returns either the engine's success code or the code of
the registered callback. -/
theorem setODfinish_ret (i : Nat) (e : Subindex)
    (slots : Option (List (Option Nat))) (obj2 src1 : Nat → Nat) :
    (_setODfinish i e slots obj2 src1).ret = OD_SUCCESSFUL ∨
    ∃ c, callbackOf slots i = some c ∧ (_setODfinish i e slots obj2 src1).ret = c := by
  rcases hc : callbackOf slots i with _ | cb
  · unfold _setODfinish
    simp only [hc]
    split <;> exact Or.inl rfl
  · unfold _setODfinish
    simp only [hc]
    split
    · exact Or.inr ⟨cb, rfl, rfl⟩
    · split <;> exact Or.inl rfl

/-- When rights-checking is off, getODentry is the copy step applied to the
resolved entry, with the data type reported back. -/
theorem getODentry_no_check (be : Bool) (d : CO_Data) (w i : Nat)
    (dest : Nat → Nat) (pes : Nat) (e : Subindex)
    (hfind : _findODentry d w i = Except.ok e) :
    getODentry be d w i dest pes false =
      ⟨(_copyODentry be e dest e.bDataType pes true).ret,
       (_copyODentry be e dest e.bDataType pes true).dest,
       (_copyODentry be e dest e.bDataType pes true).obj,
       (_copyODentry be e dest e.bDataType pes true).expectedSize,
       some e.bDataType⟩ := by
  simp only [getODentry, hfind]
  rw [if_neg (show ¬(false = true ∧ _checkODentryAccess e = false) from
    fun hcon => Bool.noConfusion hcon.1)]

/-- Once the destination capacity passes the check, every branch of the
copy step reports success. -/
theorem copyODentry_ret_success (be : Bool) (e : Subindex) (dest : Nat → Nat)
    (dataType pes : Nat) (ez : Bool) (hcap : ¬(pes < e.size)) :
    (_copyODentry be e dest dataType pes ez).ret = OD_SUCCESSFUL := by
  unfold _copyODentry
  rw [if_neg hcap]
  split
  · rfl
  · split <;> rfl

/-- Destination bytes produced by a non-string read with endianize
requested: the reversed window under the endianize condition, the straight
window otherwise. -/
theorem copyODentry_scalar_dest (be : Bool) (e : Subindex) (dest : Nat → Nat)
    (pes j : Nat) (hcap : e.size ≤ pes) (hvs : e.bDataType ≠ visible_string)
    (hj : j < e.size) :
    (_copyODentry be e dest e.bDataType pes true).dest j =
      if endianCond be true e.bDataType then e.pObject (e.size - 1 - j)
      else e.pObject j := by
  unfold _copyODentry
  rw [if_neg (Nat.not_lt.mpr hcap)]
  by_cases hbe : endianCond be true e.bDataType
  · rw [if_pos hbe, if_pos hbe]
    show (if j < e.size then e.pObject (e.size - 1 - j) else dest j) =
      e.pObject (e.size - 1 - j)
    rw [if_pos hj]
  · rw [if_neg hbe, if_neg hbe, if_pos hvs]
    show (if j < e.size then e.pObject j else dest j) = e.pObject j
    rw [if_pos hj]

/-- A full-size write stores the (possibly endianized) source byte at every
offset of the window. -/
theorem writtenObject_at (be ez : Bool) (e : Subindex) (src : Nat → Nat)
    (k : Nat) (hk : k < e.size) :
    writtenObject be ez e src e.size k =
      endianizedSource be ez e.bDataType e.size src k := by
  unfold writtenObject
  rw [if_neg (show ¬(e.bDataType = visible_string ∧ e.size < e.size) from
    fun hcon => Nat.lt_irrefl _ hcon.2)]
  show (if k < e.size then endianizedSource be ez e.bDataType e.size src k
    else e.pObject k) = endianizedSource be ez e.bDataType e.size src k
  rw [if_pos hk]

/-- Pointwise value of the endianized source inside the window. -/
theorem endianizedSource_at (be ez : Bool) (dt n k : Nat) (src : Nat → Nat)
    (hk : k < n) :
    endianizedSource be ez dt n src k =
      if endianCond be ez dt then src (n - 1 - k) else src k := by
  unfold endianizedSource
  by_cases hcond : endianCond be ez dt
  · rw [if_pos hcond, if_pos hcond, swapIter_full n src k, if_pos hk]
  · rw [if_neg hcond, if_neg hcond]

/-
Claim theorems.
-/

/-- Claim C1: the spec requires that with rights-checking enabled a read of
a write-only entry returns READ_NOT_ALLOWED while a readable entry
proceeds to the copy. The code inverts the test: at (0x1017, 0), a plainly
readable read-write entry, the read is rejected with READ_NOT_ALLOWED and
nothing is copied, while at (0x1017, 1), a write-only entry, the read
succeeds and the stored byte 0xE8 lands in the destination. -/
theorem getODentry_checkAccess_inverted :
    (getODentry false accessDict 0x1017 0 (fun _ => 0) 2 true).ret =
      OD_READ_NOT_ALLOWED ∧
    (getODentry false accessDict 0x1017 0 (fun _ => 0) 2 true).dest 0 = 0 ∧
    (getODentry false accessDict 0x1017 1 (fun _ => 0) 2 true).ret =
      OD_SUCCESSFUL ∧
    (getODentry false accessDict 0x1017 1 (fun _ => 0) 2 true).dest 0 = 0xE8 :=
  ⟨rfl, rfl, rfl, rfl⟩

/-- Claim C2 counterexample: a write with rights-checking enabled to the
entry at (0x2000, 0), whose access flags are read-only combined with
persist-on-write, is NOT rejected: it returns the success code, overwrites
the stored bytes 0xAA, 0xBB with the source bytes, and even fires the
persistence notification. -/
theorem setODentry_ro_persist_write_accepted :
    (_setODentry false roPersistDict 0x2000 0 (fun k => k + 1) 2 true false).ret =
      OD_SUCCESSFUL ∧
    (_setODentry false roPersistDict 0x2000 0 (fun k => k + 1) 2 true false).ret ≠
      OD_WRITE_NOT_ALLOWED ∧
    (_setODentry false roPersistDict 0x2000 0 (fun k => k + 1) 2 true false).obj 0 = 1 ∧
    (_setODentry false roPersistDict 0x2000 0 (fun k => k + 1) 2 true false).obj 1 = 2 ∧
    (_setODentry false roPersistDict 0x2000 0 (fun k => k + 1) 2 true false).events =
      [WriteEvent.copied, WriteEvent.stored] :=
  ⟨rfl, by decide, rfl, rfl, rfl⟩

/-- Claim C2 as amended: only an entry whose access type is exactly the
read-only flag (without the persist bit) is rejected by a rights-checked
write; the write then returns WRITE_NOT_ALLOWED and leaves both the entry
storage and the caller's source buffer unchanged, with no notification
issued. -/
theorem setODentry_exact_ro_write_not_allowed (be ez : Bool) (d : CO_Data)
    (w i pes : Nat) (src : Nat → Nat) (t : IndexTable)
    (slots : Option (List (Option Nat))) (e : Subindex)
    (hscan : d.scanIndexOD w = some (t, slots))
    (hsub : i < t.bSubCount)
    (he : t.pSubindex.getD i dummySubindex = e)
    (hro : e.bAccessType = RO) :
    (_setODentry be d w i src pes true ez).ret = OD_WRITE_NOT_ALLOWED ∧
    (_setODentry be d w i src pes true ez).obj = e.pObject ∧
    (_setODentry be d w i src pes true ez).src = src ∧
    (_setODentry be d w i src pes true ez).events = [] := by
  rw [setODentry_resolved be d w i src pes true ez t slots hscan hsub, he]
  unfold setODcore
  rw [if_pos (show true = true ∧ e.bAccessType = RO from ⟨rfl, hro⟩)]
  exact ⟨rfl, rfl, rfl, rfl⟩

/-- Witness for the amended C2 at the concrete exactly-read-only entry
(0x2001, 0). -/
theorem setODentry_exact_ro_write_not_allowed_witness :
    (_setODentry false roDict 0x2001 0 (fun _ => 5) 2 true false).ret =
      OD_WRITE_NOT_ALLOWED ∧
    (_setODentry false roDict 0x2001 0 (fun _ => 5) 2 true false).obj =
      roEntry.pObject ∧
    (_setODentry false roDict 0x2001 0 (fun _ => 5) 2 true false).src =
      (fun _ => 5) ∧
    (_setODentry false roDict 0x2001 0 (fun _ => 5) 2 true false).events = [] :=
  setODentry_exact_ro_write_not_allowed false false roDict 0x2001 0 2 (fun _ => 5)
    ⟨1, [roEntry]⟩ none roEntry rfl (by decide) rfl rfl

/-- Claim C3: at the failing input, the visible_string entry (0x3000, 0)
of capacity 4 holding "AB" read into a fresh buffer of capacity 6 filled
with 0xEE: the scan stops at the stored zero and reports the copied length
2 (this part of the claim holds), but the engine does not zero-terminate
the caller's destination — byte 2 of the destination still holds 0xEE —
because the terminating zero is written through the storage-side scan
pointer instead, where a zero already sits (storage byte 2 stays 0). -/
theorem getODentry_string_read_dest_not_terminated :
    (getODentry false strDict 0x3000 0 (fun _ => 0xEE) 6 false).ret =
      OD_SUCCESSFUL ∧
    (getODentry false strDict 0x3000 0 (fun _ => 0xEE) 6 false).expectedSize = 2 ∧
    (getODentry false strDict 0x3000 0 (fun _ => 0xEE) 6 false).dest 0 = 65 ∧
    (getODentry false strDict 0x3000 0 (fun _ => 0xEE) 6 false).dest 1 = 66 ∧
    (getODentry false strDict 0x3000 0 (fun _ => 0xEE) 6 false).dest 2 = 0xEE ∧
    (getODentry false strDict 0x3000 0 (fun _ => 0xEE) 6 false).dest 2 ≠ 0 ∧
    (getODentry false strDict 0x3000 0 (fun _ => 0xEE) 6 false).obj 2 = 0 :=
  ⟨rfl, rfl, rfl, rfl, rfl, by decide, rfl⟩

/-- Claim C4: at the failing input, the visible_string entry (0x4000, 0)
with declared size 2 and no zero byte anywhere in memory, read with
destination capacity 3: the scan walks past the declared window — the
reported size 3 exceeds the declared size 2 and the destination receives
the storage byte at offset 2, which lies outside [storage, storage+size). -/
theorem getODentry_string_scan_reads_past_window :
    (getODentry false overrunDict 0x4000 0 (fun _ => 0) 3 false).ret =
      OD_SUCCESSFUL ∧
    (getODentry false overrunDict 0x4000 0 (fun _ => 0) 3 false).expectedSize = 3 ∧
    overrunEntry.size <
      (getODentry false overrunDict 0x4000 0 (fun _ => 0) 3 false).expectedSize ∧
    (getODentry false overrunDict 0x4000 0 (fun _ => 0) 3 false).dest 2 =
      overrunEntry.pObject 2 ∧
    (getODentry false overrunDict 0x4000 0 (fun _ => 0) 3 false).dest 2 = 67 :=
  ⟨rfl, rfl, by decide, rfl, rfl⟩

/-- Claim C5 counterexample: a write of size 0 to the 16-bit entry
(0x5000, 0) returns the success code and reports the declared size 2 back,
but copies nothing: storage keeps its previous bytes 0xAA, 0xBB instead of
receiving the first two source bytes 1, 2. -/
theorem setODentry_zero_size_copies_nothing :
    (_setODentry false u16Dict 0x5000 0 (fun k => k + 1) 0 false false).ret =
      OD_SUCCESSFUL ∧
    (_setODentry false u16Dict 0x5000 0 (fun k => k + 1) 0 false false).expectedSize
      = 2 ∧
    (_setODentry false u16Dict 0x5000 0 (fun k => k + 1) 0 false false).obj 0 =
      0xAA ∧
    (_setODentry false u16Dict 0x5000 0 (fun k => k + 1) 0 false false).obj 1 =
      0xBB ∧
    (_setODentry false u16Dict 0x5000 0 (fun k => k + 1) 0 false false).obj 0 ≠
      (fun k => k + 1) 0 :=
  ⟨rfl, rfl, rfl, rfl, by decide⟩

/-- Claim C5 as amended: a write with given size 0 to a non-string entry is
accepted and reports the declared size back, but it copies zero bytes: the
entry storage is left exactly as it was, not filled from the source. -/
theorem setODentry_zero_size_accepted_no_copy (be ez ca : Bool)
    (d : CO_Data) (w i : Nat) (src : Nat → Nat) (t : IndexTable)
    (slots : Option (List (Option Nat))) (e : Subindex)
    (hscan : d.scanIndexOD w = some (t, slots))
    (hsub : i < t.bSubCount)
    (he : t.pSubindex.getD i dummySubindex = e)
    (hacc : ¬(ca = true ∧ e.bAccessType = RO))
    (hvs : e.bDataType ≠ visible_string)
    (hval : d.valueRangeTest e.bDataType
      (endianizedSource be ez e.bDataType e.size src) = OD_SUCCESSFUL)
    (hcb : callbackOf slots i = none) :
    (_setODentry be d w i src 0 ca ez).ret = OD_SUCCESSFUL ∧
    (_setODentry be d w i src 0 ca ez).expectedSize = e.size ∧
    (_setODentry be d w i src 0 ca ez).obj = e.pObject := by
  rw [setODentry_resolved be d w i src 0 ca ez t slots hscan hsub, he,
    setODcore_pass be ez ca d i e slots src 0 hacc (Or.inl rfl) hval]
  have hobj : writtenObject be ez e src 0 = e.pObject := by
    unfold writtenObject
    rw [if_neg (fun hcon => hvs hcon.1)]
    funext k
    exact if_neg (Nat.not_lt_zero k)
  rw [hobj]
  unfold _setODfinish
  simp only [hcb]
  split
  · exact ⟨rfl, rfl, rfl⟩
  · exact ⟨rfl, rfl, rfl⟩

/-- Witness for the amended C5 at the concrete entry (0x5000, 0). -/
theorem setODentry_zero_size_accepted_no_copy_witness :
    (_setODentry false u16Dict 0x5000 0 (fun k => k + 7) 0 false false).ret =
      OD_SUCCESSFUL ∧
    (_setODentry false u16Dict 0x5000 0 (fun k => k + 7) 0 false false).expectedSize
      = u16Entry.size ∧
    (_setODentry false u16Dict 0x5000 0 (fun k => k + 7) 0 false false).obj =
      u16Entry.pObject :=
  setODentry_zero_size_accepted_no_copy false false false u16Dict 0x5000 0
    (fun k => k + 7) ⟨1, [u16Entry]⟩ none u16Entry rfl (by decide) rfl
    (by decide) (by decide) rfl rfl

/-- Claim C7: for a write that has passed resolution and the access check,
the size gate is exactly: proceed when the given size is 0, or equals the
declared size, or the type is visible_string and the given size is
smaller. Any other size returns LENGTH_DATA_INVALID, leaves the entry
storage and the source buffer untouched, and reports the declared size
back; an accepted size never produces LENGTH_DATA_INVALID (given that the
injected validator and the registered callback never return that code
themselves). -/
theorem setODentry_size_gate_exact (be ez ca : Bool) (d : CO_Data)
    (w i pes : Nat) (src : Nat → Nat) (t : IndexTable)
    (slots : Option (List (Option Nat))) (e : Subindex)
    (hscan : d.scanIndexOD w = some (t, slots))
    (hsub : i < t.bSubCount)
    (he : t.pSubindex.getD i dummySubindex = e)
    (hacc : ¬(ca = true ∧ e.bAccessType = RO))
    (hval : ∀ s : Nat → Nat, d.valueRangeTest e.bDataType s ≠ OD_LENGTH_DATA_INVALID)
    (hcb : ∀ c : Nat, callbackOf slots i = some c → c ≠ OD_LENGTH_DATA_INVALID) :
    (¬(pes = 0 ∨ pes = e.size ∨ (e.bDataType = visible_string ∧ pes < e.size)) →
      (_setODentry be d w i src pes ca ez).ret = OD_LENGTH_DATA_INVALID ∧
      (_setODentry be d w i src pes ca ez).obj = e.pObject ∧
      (_setODentry be d w i src pes ca ez).src = src ∧
      (_setODentry be d w i src pes ca ez).expectedSize = e.size) ∧
    ((pes = 0 ∨ pes = e.size ∨ (e.bDataType = visible_string ∧ pes < e.size)) →
      (_setODentry be d w i src pes ca ez).ret ≠ OD_LENGTH_DATA_INVALID) := by
  rw [setODentry_resolved be d w i src pes ca ez t slots hscan hsub, he]
  constructor
  · intro hrej
    unfold setODcore
    rw [if_neg hacc, if_neg hrej]
    exact ⟨rfl, rfl, rfl, rfl⟩
  · intro hsize
    unfold setODcore
    rw [if_neg hacc, if_pos hsize]
    split
    · exact hval _
    · rcases setODfinish_ret i e slots (writtenObject be ez e src pes)
        (endianizedSource be ez e.bDataType e.size src) with hr | ⟨c, hcs, hr⟩
      · rw [hr]
        decide
      · rw [hr]
        exact hcb c hcs

/-- Witness for C7 at the concrete entry (0x5000, 0) with the unacceptable
given size 1 (non-string entry of declared size 2). -/
theorem setODentry_size_gate_exact_witness :
    (¬((1 : Nat) = 0 ∨ (1 : Nat) = u16Entry.size ∨
        (u16Entry.bDataType = visible_string ∧ 1 < u16Entry.size)) →
      (_setODentry false u16Dict 0x5000 0 (fun _ => 9) 1 false false).ret =
        OD_LENGTH_DATA_INVALID ∧
      (_setODentry false u16Dict 0x5000 0 (fun _ => 9) 1 false false).obj =
        u16Entry.pObject ∧
      (_setODentry false u16Dict 0x5000 0 (fun _ => 9) 1 false false).src =
        (fun _ => 9) ∧
      (_setODentry false u16Dict 0x5000 0 (fun _ => 9) 1 false false).expectedSize =
        u16Entry.size) ∧
    (((1 : Nat) = 0 ∨ (1 : Nat) = u16Entry.size ∨
        (u16Entry.bDataType = visible_string ∧ 1 < u16Entry.size)) →
      (_setODentry false u16Dict 0x5000 0 (fun _ => 9) 1 false false).ret ≠
        OD_LENGTH_DATA_INVALID) :=
  setODentry_size_gate_exact false false false u16Dict 0x5000 0 1 (fun _ => 9)
    ⟨1, [u16Entry]⟩ none u16Entry rfl (by decide) rfl (by decide)
    (fun s => by show OD_SUCCESSFUL ≠ OD_LENGTH_DATA_INVALID; decide)
    (fun c h => Option.noConfusion h)

/-- Claim C8: when a callback is registered on the written subindex and the
write passes the access, size and validator steps, the callback is invoked
exactly once, after the copy and before the persistence notification (the
event list is exactly copy, callback, and possibly store, in that order);
a non-success callback code becomes the write's result while the storage
already holds the copied value, and the persistence notification is then
skipped. -/
theorem setODentry_callback_semantics (be ez ca : Bool) (d : CO_Data)
    (w i pes cb : Nat) (src : Nat → Nat) (t : IndexTable)
    (l : List (Option Nat)) (e : Subindex)
    (hscan : d.scanIndexOD w = some (t, some l))
    (hsub : i < t.bSubCount)
    (he : t.pSubindex.getD i dummySubindex = e)
    (hacc : ¬(ca = true ∧ e.bAccessType = RO))
    (hsize : pes = 0 ∨ pes = e.size ∨
      (e.bDataType = visible_string ∧ pes < e.size))
    (hval : d.valueRangeTest e.bDataType
      (endianizedSource be ez e.bDataType e.size src) = OD_SUCCESSFUL)
    (hcb : l.getD i none = some cb) :
    (_setODentry be d w i src pes ca ez).obj = writtenObject be ez e src pes ∧
    ((_setODentry be d w i src pes ca ez).events =
        [WriteEvent.copied, WriteEvent.callbackInvoked cb] ∨
      (_setODentry be d w i src pes ca ez).events =
        [WriteEvent.copied, WriteEvent.callbackInvoked cb, WriteEvent.stored]) ∧
    (cb ≠ OD_SUCCESSFUL →
      (_setODentry be d w i src pes ca ez).ret = cb ∧
      (_setODentry be d w i src pes ca ez).events =
        [WriteEvent.copied, WriteEvent.callbackInvoked cb]) ∧
    (cb = OD_SUCCESSFUL →
      (_setODentry be d w i src pes ca ez).ret = OD_SUCCESSFUL) := by
  rw [setODentry_resolved be d w i src pes ca ez t (some l) hscan hsub, he,
    setODcore_pass be ez ca d i e (some l) src pes hacc hsize hval]
  have hcof : callbackOf (some l) i = some cb := hcb
  unfold _setODfinish
  simp only [hcof]
  by_cases hcs : cb = OD_SUCCESSFUL
  · rw [if_neg (fun hne => hne hcs)]
    split
    · exact ⟨rfl, Or.inr rfl, fun hne => absurd hcs hne, fun _ => rfl⟩
    · exact ⟨rfl, Or.inl rfl, fun hne => absurd hcs hne, fun _ => rfl⟩
  · rw [if_pos hcs]
    exact ⟨rfl, Or.inl rfl, fun _ => ⟨rfl, rfl⟩, fun hc => absurd hc hcs⟩

/-- Witness for C8: the dictionary with a failing callback (code
0x08000020) registered on subindex 2 of index 0x7000, written with the
declared size. -/
theorem setODentry_callback_semantics_witness :
    (_setODentry false cbFailDict 0x7000 2 (fun _ => 3) 2 false false).obj =
      writtenObject false false cbFailEntry (fun _ => 3) 2 ∧
    ((_setODentry false cbFailDict 0x7000 2 (fun _ => 3) 2 false false).events =
        [WriteEvent.copied, WriteEvent.callbackInvoked 0x08000020] ∨
      (_setODentry false cbFailDict 0x7000 2 (fun _ => 3) 2 false false).events =
        [WriteEvent.copied, WriteEvent.callbackInvoked 0x08000020,
          WriteEvent.stored]) ∧
    ((0x08000020 : Nat) ≠ OD_SUCCESSFUL →
      (_setODentry false cbFailDict 0x7000 2 (fun _ => 3) 2 false false).ret =
        0x08000020 ∧
      (_setODentry false cbFailDict 0x7000 2 (fun _ => 3) 2 false false).events =
        [WriteEvent.copied, WriteEvent.callbackInvoked 0x08000020]) ∧
    ((0x08000020 : Nat) = OD_SUCCESSFUL →
      (_setODentry false cbFailDict 0x7000 2 (fun _ => 3) 2 false false).ret =
        OD_SUCCESSFUL) :=
  setODentry_callback_semantics false false false cbFailDict 0x7000 2 2
    0x08000020 (fun _ => 3) ⟨3, [cbFailEntry, cbFailEntry, cbFailEntry]⟩
    [none, none, some 0x08000020] cbFailEntry rfl (by decide) rfl (by decide)
    (Or.inr (Or.inl rfl)) rfl rfl

/-- Claim C9: a read whose destination capacity is below the declared size
fails with OUT_OF_MEMORY, reports the declared size in the caller's
capacity variable and copies nothing; repeating the read with a buffer of
exactly the reported size succeeds. Stated for reads without
rights-checking. -/
theorem getODentry_size_discovery (be : Bool) (d : CO_Data) (w i cap : Nat)
    (dest dest2 : Nat → Nat) (t : IndexTable)
    (slots : Option (List (Option Nat))) (e : Subindex)
    (hscan : d.scanIndexOD w = some (t, slots))
    (hsub : i < t.bSubCount)
    (he : t.pSubindex.getD i dummySubindex = e)
    (hcap : cap < e.size) :
    (getODentry be d w i dest cap false).ret = SDOABT_OUT_OF_MEMORY ∧
    (getODentry be d w i dest cap false).expectedSize = e.size ∧
    (getODentry be d w i dest cap false).dest = dest ∧
    (getODentry be d w i dest2 e.size false).ret = OD_SUCCESSFUL := by
  have hfind := findODentry_ok d w i t slots hscan hsub
  rw [he] at hfind
  rw [getODentry_no_check be d w i dest cap e hfind,
    getODentry_no_check be d w i dest2 e.size e hfind]
  refine ⟨?_, ?_, ?_, ?_⟩
  · show (_copyODentry be e dest e.bDataType cap true).ret = SDOABT_OUT_OF_MEMORY
    unfold _copyODentry
    rw [if_pos hcap]
  · show (_copyODentry be e dest e.bDataType cap true).expectedSize = e.size
    unfold _copyODentry
    rw [if_pos hcap]
  · show (_copyODentry be e dest e.bDataType cap true).dest = dest
    unfold _copyODentry
    rw [if_pos hcap]
  · exact copyODentry_ret_success be e dest2 e.bDataType e.size true
      (Nat.lt_irrefl e.size)

/-- Witness for C9 at the concrete entry (0x1017, 0) of declared size 2,
first read with capacity 1. -/
theorem getODentry_size_discovery_witness :
    (getODentry false accessDict 0x1017 0 (fun _ => 0) 1 false).ret =
      SDOABT_OUT_OF_MEMORY ∧
    (getODentry false accessDict 0x1017 0 (fun _ => 0) 1 false).expectedSize =
      rwEntry.size ∧
    (getODentry false accessDict 0x1017 0 (fun _ => 0) 1 false).dest =
      (fun _ => 0) ∧
    (getODentry false accessDict 0x1017 0 (fun _ => 0) rwEntry.size false).ret =
      OD_SUCCESSFUL :=
  getODentry_size_discovery false accessDict 0x1017 0 1 (fun _ => 0) (fun _ => 0)
    ⟨2, [rwEntry, woEntry]⟩ none rwEntry rfl (by decide) rfl (by decide)

/-- Claim C10: registering a callback on a present index that has a slot
array, with a subindex at or beyond the subindex count, returns the
resolver's success code — not NO_SUCH_SUBINDEX — and leaves every callback
slot unchanged. -/
theorem registerCallback_oob_subindex_reports_success (d : CO_Data)
    (w i cb : Nat) (t : IndexTable) (l : List (Option Nat))
    (hscan : d.scanIndexOD w = some (t, some l))
    (hsub : t.bSubCount ≤ i) :
    RegisterSetODentryCallBack d w i cb = (OD_SUCCESSFUL, some l) ∧
    OD_SUCCESSFUL ≠ OD_NO_SUCH_SUBINDEX := by
  constructor
  · simp only [RegisterSetODentryCallBack, hscan]
    rw [if_neg (Nat.not_lt.mpr hsub)]
  · decide

/-- Witness for C10: registering at subindex 3 of index 0x6000, whose
table has a single subindex and a one-slot callback array. -/
theorem registerCallback_oob_subindex_reports_success_witness :
    RegisterSetODentryCallBack cbDict 0x6000 3 7 = (OD_SUCCESSFUL, some [none]) ∧
    OD_SUCCESSFUL ≠ OD_NO_SUCH_SUBINDEX :=
  registerCallback_oob_subindex_reports_success cbDict 0x6000 3 7
    ⟨1, [u16Entry]⟩ [none] rfl (by decide)

/-- Claim C6: writing a non-string, non-boolean multi-byte scalar entry at
its declared size with endianize requested and then reading it back with
endianize requested into a sufficiently large buffer restores the original
native bytes: the write-side in-place reversal and the read-side reversal
compose to the identity (on a little-endian build both sides are the
identity). `dAfter` is the dictionary as the read path sees it after the
write, i.e. the same entry with its storage replaced by the write's
result. -/
theorem endianize_write_read_roundtrip (be : Bool) (d dAfter : CO_Data)
    (w i cap : Nat) (src dest : Nat → Nat)
    (t tAfter : IndexTable) (slots slotsAfter : Option (List (Option Nat)))
    (e eAfter : Subindex)
    (hscan : d.scanIndexOD w = some (t, slots))
    (hsub : i < t.bSubCount)
    (he : t.pSubindex.getD i dummySubindex = e)
    (hdt1 : boolean < e.bDataType)
    (hdt2 : ¬(visible_string ≤ e.bDataType ∧ e.bDataType ≤ domain))
    (hval : d.valueRangeTest e.bDataType
      (endianizedSource be true e.bDataType e.size src) = OD_SUCCESSFUL)
    (hcap : e.size ≤ cap)
    (hscanA : dAfter.scanIndexOD w = some (tAfter, slotsAfter))
    (hsubA : i < tAfter.bSubCount)
    (heA : tAfter.pSubindex.getD i dummySubindex = eAfter)
    (heq : eAfter =
      { e with pObject := (_setODentry be d w i src e.size false true).obj }) :
    (getODentry be dAfter w i dest cap false).ret = OD_SUCCESSFUL ∧
    ∀ j, j < e.size → (getODentry be dAfter w i dest cap false).dest j = src j := by
  have hvs : e.bDataType ≠ visible_string := fun h =>
    hdt2 ⟨Nat.le_of_eq h.symm, le_trans (Nat.le_of_eq h) (by decide)⟩
  have hW : (_setODentry be d w i src e.size false true).obj =
      writtenObject be true e src e.size := by
    rw [setODentry_resolved be d w i src e.size false true t slots hscan hsub, he,
      setODcore_pass be true false d i e slots src e.size
        (fun hcon => Bool.noConfusion hcon.1) (Or.inr (Or.inl rfl)) hval]
    exact (setODfinish_fields i e slots _ _).1
  have hsizeA : eAfter.size = e.size := by rw [heq]
  have hdtA : eAfter.bDataType = e.bDataType := by rw [heq]
  have hobjA : eAfter.pObject = writtenObject be true e src e.size := by
    rw [heq]
    exact hW
  have hfindA := findODentry_ok dAfter w i tAfter slotsAfter hscanA hsubA
  rw [heA] at hfindA
  rw [getODentry_no_check be dAfter w i dest cap eAfter hfindA]
  constructor
  · exact copyODentry_ret_success be eAfter dest eAfter.bDataType cap true
      (by rw [hsizeA]; exact Nat.not_lt.mpr hcap)
  · intro j hj
    show (_copyODentry be eAfter dest eAfter.bDataType cap true).dest j = src j
    rw [copyODentry_scalar_dest be eAfter dest cap j
      (by rw [hsizeA]; exact hcap) (by rw [hdtA]; exact hvs)
      (by rw [hsizeA]; exact hj)]
    rw [hdtA, hsizeA, hobjA]
    by_cases hbe : endianCond be true e.bDataType
    · rw [if_pos hbe,
        writtenObject_at be true e src (e.size - 1 - j) (by omega),
        endianizedSource_at be true e.bDataType e.size (e.size - 1 - j) src
          (by omega),
        if_pos hbe]
      congr 1
      omega
    · rw [if_neg hbe,
        writtenObject_at be true e src j hj,
        endianizedSource_at be true e.bDataType e.size j src hj,
        if_neg hbe]

/-- Witness for C6 on a big-endian build: the 16-bit heartbeat-style entry
at (0x1018, 0), written with the little-endian native bytes of 1000 and
read back into a 2-byte buffer. -/
theorem endianize_write_read_roundtrip_witness :
    (getODentry true hbDictAfter 0x1018 0 (fun _ => 0) 2 false).ret =
      OD_SUCCESSFUL ∧
    ∀ j, j < hbEntry.size →
      (getODentry true hbDictAfter 0x1018 0 (fun _ => 0) 2 false).dest j =
        hbSrc j :=
  endianize_write_read_roundtrip true hbDict hbDictAfter 0x1018 0 2 hbSrc
    (fun _ => 0) ⟨1, [hbEntry]⟩ ⟨1, [hbEntryAfter]⟩ none none hbEntry
    hbEntryAfter rfl (by decide) rfl (by decide) (by decide) rfl (by decide)
    rfl (by decide) rfl rfl

end ObjAcces
